import Mathlib

set_option autoImplicit false
set_option maxRecDepth 200000

namespace Buddy

/-! Shallow embedding of the `buddy` package manager (src/src/main.rs and
src/src/commands/init.rs).

The filesystem is modelled as a partial map from paths (lists of path
segments) to entries (directories or files with string contents).  Relative
paths are resolved against an explicit working-directory parameter where the
source resolves them against the process working directory.  Machine I/O
failures (permissions, disk errors) are outside the model: every create and
write succeeds, matching the success path of the Rust code; `unwrap` calls on
operations that can fail for structural reasons visible in the model (a
missing canonicalize target, a file blocking a directory creation) are
modelled as explicit panic outcomes. -/

/-- A filesystem entry: a directory or a file with its byte content. -/
inductive Entry where
  | dir : Entry
  | file : String → Entry
  deriving DecidableEq

/-- A filesystem: a partial map from paths (segment lists) to entries. -/
def FS : Type := List String → Option Entry

/-- The empty filesystem. -/
def FS.empty : FS := fun _ => none

/-- Rust `Path::exists`: the path maps to some entry. -/
def FS.existsB (fs : FS) (p : List String) : Bool := (fs p).isSome

/-- Rust `Path::is_dir`: the path maps to a directory. -/
def FS.isDirB (fs : FS) (p : List String) : Bool :=
  match fs p with
  | some Entry.dir => true
  | _ => false

/-- Rust `Path::is_file`: the path maps to a file. -/
def FS.isFileB (fs : FS) (p : List String) : Bool :=
  match fs p with
  | some (Entry.file _) => true
  | _ => false

/-- Rust `File::create` followed by writing `c`: create or truncate-and-replace. -/
def FS.writeFile (fs : FS) (p : List String) (c : String) : FS :=
  fun q => if q = p then some (Entry.file c) else fs q

/-- Rust `fs::create_dir` / `fs::create_dir_all` with existing parents. -/
def FS.mkdir (fs : FS) (p : List String) : FS :=
  fun q => if q = p then some Entry.dir else fs q

/-- Rust `fs::remove_dir_all`: removes the entry and everything below it. -/
def FS.removeTree (fs : FS) (p : List String) : FS :=
  fun q => if p.isPrefixOf q then none else fs q

/-! Section: String replacement

Model of Rust `str::replace` (used at src/src/main.rs line 40), executed on
character lists.  `replaceAux` walks the string left to right; at each
position a match of `pat` is replaced by `repl` and scanning resumes after
the match.  The fuel starts at the length of the string and decreases by one
per emitted position, which suffices because every step consumes at least one
character. -/

def replaceAux (pat repl : List Char) : Nat → List Char → List Char
  | _, [] => []
  | 0, s => s
  | fuel + 1, c :: rest =>
    if pat.isPrefixOf (c :: rest) then
      repl ++ replaceAux pat repl fuel (rest.drop (pat.length - 1))
    else
      c :: replaceAux pat repl fuel rest

/-- Rust `str::replace pat -> repl` on character lists (for nonempty `pat`). -/
def replaceAll (pat repl s : List Char) : List Char :=
  replaceAux pat repl s.length s

/-- Substring test on character lists: does `pat` occur inside `s`. -/
def listHasSub (pat : List Char) : List Char → Bool
  | [] => pat.isEmpty
  | c :: rest => pat.isPrefixOf (c :: rest) || listHasSub pat rest

/-! Section: Manifest model (`Package`, `Config` in src/src/main.rs) -/

/-- The `struct Package` of src/src/main.rs. -/
structure Package where
  name : String
  version : String
  edition : String
  deriving DecidableEq

/-- The `struct Config` of src/src/main.rs; the dependency map is modelled as an
association list. -/
structure Config where
  package : Package
  dependencies : List (String × String)
  deriving DecidableEq

/-- Model of `Config::default()`: all fields empty. -/
def defaultConfig : Config := ⟨⟨"", "", ""⟩, []⟩

/-- Manifest load (src/src/main.rs lines 353-357): a missing file yields the
default config; a present file is parsed, and a parse failure is the
`unwrap` panic that aborts the command, modelled as an error.  The TOML
parser itself is the external `toml` crate, abstracted as the `parse`
parameter. -/
def loadConfig (content : Option String) (parse : String → Option Config) :
    Except Unit Config :=
  match content with
  | none => Except.ok defaultConfig
  | some s =>
    match parse s with
    | some cfg => Except.ok cfg
    | none => Except.error ()

/-! Section: Dependency plugin catalogue (src/src/main.rs lines 361-424) -/

/-- The `struct Plugin` of src/src/main.rs; the versions map is modelled as an
association list in declaration order. -/
structure Plugin where
  name : String
  versions : List (String × String)
  build_rule : String

/-- The `google-test` plugin literal from src/src/main.rs. -/
def googleTestPlugin : Plugin :=
  { name := "google-test",
    versions :=
      [("1.13.0", "b796f7d44681514f58a683a3a71ff17c94edb0c1"),
       ("1.12.1", "58d77fa8070e8cec2dc1ed015d66b454c8d78850")],
    build_rule :=
      "http_archive(\n  name = \"com_google_googletest\",\n  urls = [\"https://github.com/google/googletest/archive/5ab508a01f9eb089207ee87fd547d290da39d015.zip\"],\n  strip_prefix = \"googletest-5ab508a01f9eb089207ee87fd547d290da39d015\",\n)" }

/-- The `bazel-toolchain` plugin literal from src/src/main.rs. -/
def bazelToolchainPlugin : Plugin :=
  { name := "bazel-toolchain",
    versions :=
      [("0.8.2", "b796f7d44681514f58a683a3a71ff17c94edb0c1"),
       ("1.12.1", "58d77fa8070e8cec2dc1ed015d66b454c8d78850")],
    build_rule :=
      "BAZEL_TOOLCHAIN_TAG = \"0.8.2\"\nBAZEL_TOOLCHAIN_SHA = \"0fc3a2b0c9c929920f4bed8f2b446a8274cad41f5ee823fd3faa0d7641f20db0\"\n\nhttp_archive(\n    name = \"com_grail_bazel_toolchain\",\n    sha256 = BAZEL_TOOLCHAIN_SHA,\n    strip_prefix = \"bazel-toolchain-\x7btag\x7d\".format(tag = BAZEL_TOOLCHAIN_TAG),\n    canonical_id = BAZEL_TOOLCHAIN_TAG,\n    url = \"https://github.com/grailbio/bazel-toolchain/archive/refs/tags/\x7btag\x7d.tar.gz\".format(tag = BAZEL_TOOLCHAIN_TAG),\n)\n\nload(\"@com_grail_bazel_toolchain//toolchain:deps.bzl\", \"bazel_toolchain_dependencies\")\n\nbazel_toolchain_dependencies()\n\nload(\"@com_grail_bazel_toolchain//toolchain:rules.bzl\", \"llvm_toolchain\")\n\nllvm_toolchain(\n    name = \"llvm_toolchain\",\n    llvm_version = \"15.0.6\",\n)\n\nload(\"@llvm_toolchain//:toolchains.bzl\", \"llvm_register_toolchains\")\n\nllvm_register_toolchains()" }

/-- The generated-file header written at the top of the WORKSPACE file by
`new_package` (src/src/main.rs lines 30-37). -/
def workspaceHeader : String :=
  "# This file is automatically @generated by Buddy.\n# It is not intended for manual editing.\nload(\"@bazel_tools//tools/build_defs/repo:http.bzl\", \"http_archive\")\n\n"

/-- The first plugin rule as rendered by `new_package` (src/src/main.rs lines
39-42): the google-test template with `\x7bversion\x7d` replaced by the entry of
its versions map at key `1.13.0`. -/
def renderedGoogleTest : String :=
  String.mk
    (replaceAll ("\x7bversion\x7d").data
      ((googleTestPlugin.versions.lookup ("1.13.0")).getD ("")).data
      googleTestPlugin.build_rule.data)

/-- The full WORKSPACE content written by `new_package` (src/src/main.rs lines
28-48): header, rendered google-test rule, a newline, then the
bazel-toolchain rule written verbatim. -/
def workspaceNewContent : String :=
  workspaceHeader ++ renderedGoogleTest ++ "\n" ++ bazelToolchainPlugin.build_rule

/-! Section: Scaffolding templates shared by `new` and `init`

The manifest template below is the literal of `get_base_config` in
src/src/commands/init.rs lines 13-25; src/src/main.rs lines 50-62 writes the
byte-identical text.  `get_main` and `get_test` are the literals of
src/src/commands/init.rs lines 27-64; src/src/main.rs lines 99-125 and
139-156 write the byte-identical texts (its `format!` doubles the braces). -/

/-- Function `get_base_config` of src/src/commands/init.rs. -/
def get_base_config (package_name : String) : String :=
  "[package]\nname = \"" ++ package_name ++
    "\"\nversion = \"0.1.0\"\nedition = \"2023\"\n\n[dependencies]\nbazel-toolchain = \"0.8.0\"\ngoogle-test = \"1.13.0\""

/-- Function `get_main` of src/src/commands/init.rs: the placeholder C++ source. -/
def get_main : String :=
  "#include <ctime>\n#include <string>\n#include <iostream>\n\nstd::string get_greet(const std::string& who) \x7b\n  return \"Hello \" + who;\n\x7d\n\nvoid print_localtime() \x7b\n  std::time_t result = std::time(nullptr);\n  std::cout << std::asctime(std::localtime(&result));\n\x7d\n\nint main(int argc, char** argv) \x7b\n  std::string who = \"world\";\n  if (argc > 1) \x7b\n    who = argv[1];\n  \x7d\n  std::cout << get_greet(who) << std::endl;\n  print_localtime();\n  return 0;\n\x7d"

/-- Function `get_test` of src/src/commands/init.rs: the placeholder test source. -/
def get_test : String :=
  "#include <gtest/gtest.h>\n\n// Demonstrate some basic assertions.\nTEST(HelloTest, BasicAssertions) \x7b\n  // Expect two strings not to be equal.\n  EXPECT_STRNE(\"hello\", \"world\");\n  // Expect equality.\n  EXPECT_EQ(7 * 6, 42);\n\x7d"

/-- The Buddy.lock content written by `new_package` (src/src/main.rs lines
64-76). -/
def lockContent : String :=
  "# This file is automatically @generated by Buddy.\n# It is not intended for manual editing.\nversion = 1\n\n[[package]]\nname = \"google-test\"\nversion = \"1.13.0\"\nsource = \"https://github.com/google/googletest\"\n"

/-- The .bazelrc content written by `new_package` (src/src/main.rs lines
78-84). -/
def bazelrcContent : String :=
  "build --cxxopt=-std=c++17\nbuild --incompatible_enable_cc_toolchain_resolution"

/-- The src/BUILD content written by `new_package` (src/src/main.rs lines
86-97). -/
def srcBuildContent (package_name : String) : String :=
  "load(\"@rules_cc//cc:defs.bzl\", \"cc_binary\")\n\ncc_binary(\n    name = \"" ++
    package_name ++ "\",\n    srcs = [\"main.cc\"],\n)"

/-- The test/BUILD content written by `new_package` (src/src/main.rs lines
127-137). -/
def testBuildContent : String :=
  "cc_test(\n  name = \"hello_test\",\n  size = \"small\",\n  srcs = [\"hello_test.cc\"],\n  deps = [\"@com_google_googletest//:gtest_main\"],\n)"

/-! Section: `new_package` (src/src/main.rs lines 17-167) -/

/-- The directory and file writes of the fresh branch of `new_package`
(src/src/main.rs lines 24-156), in source order.  The destination path
argument is modelled as a single path segment. -/
def newScaffold (package_name : String) (fs : FS) : FS :=
  let fs := fs.mkdir [package_name]
  let fs := fs.mkdir [package_name, "src"]
  let fs := fs.mkdir [package_name, "test"]
  let fs := fs.writeFile [package_name, "WORKSPACE"] workspaceNewContent
  let fs := fs.writeFile [package_name, "Buddy.toml"] (get_base_config package_name)
  let fs := fs.writeFile [package_name, "Buddy.lock"] lockContent
  let fs := fs.writeFile [package_name, ".bazelrc"] bazelrcContent
  let fs := fs.writeFile [package_name, "src", "BUILD"] (srcBuildContent package_name)
  let fs := fs.writeFile [package_name, "src", "main.cc"] get_main
  let fs := fs.writeFile [package_name, "test", "BUILD"] testBuildContent
  let fs := fs.writeFile [package_name, "test", "hello_test.cc"] get_test
  fs

/-- Result of `new_package`: the console lines it prints, the filesystem it
leaves behind, and its returned `std::io::Result<()>`. -/
structure NewOutcome where
  printed : List String
  fs : FS
  result : Except Unit Unit

/-- Function `new_package` of src/src/main.rs lines 17-167.  When the destination does
not exist it prints the Created line and writes the whole skeleton; when the
destination already exists it prints the error line (the `exixts` typo is in
the source) and returns `Ok(())` without touching the filesystem.  Both
branches return `Ok(())`. -/
def new_package (package_name : String) (fs : FS) : NewOutcome :=
  if fs.existsB [package_name] = false then
    { printed := ["    Created binary (application) `" ++ package_name ++ "` package"],
      fs := newScaffold package_name fs,
      result := Except.ok () }
  else
    { printed := ["error: destination `" ++ package_name ++ "` already exixts"],
      fs := fs,
      result := Except.ok () }

/-! Section: `commands::init::run` (src/src/commands/init.rs lines 66-114) -/

/-- How `commands::init::run` can fail: the explicit `Err` for an existing
package manifest in the working directory, or an `unwrap` panic (the
`fs::canonicalize` of a nonexistent path, or `fs::create_dir_all` blocked by
an existing file at the target). -/
inductive InitErr where
  | alreadyPackage
  | panic
  deriving DecidableEq

/-- Function `commands::init::run` of src/src/commands/init.rs lines 66-114.
`cwd` is the process working directory: the already-a-package guard checks
`Buddy.toml` relative to it, not under `target`.  `target` is the path
argument, modelled as an absolute symlink-free segment list so that
`fs::canonicalize` is the identity when the path exists (and an `unwrap`
panic when it does not); the package name `folder_name_from_path` derives by
splitting at the last slash is then the last segment.  The manifest is always
written; the WORKSPACE marker, src/, main.cc, test/ and test_main.cc are
created only when no WORKSPACE entry exists, each sub-step guarded exactly as
in the source. -/
def initRun (cwd target : List String) (fs : FS) : Except InitErr FS :=
  if fs.existsB (cwd ++ ["Buddy.toml"]) then
    Except.error InitErr.alreadyPackage
  else if fs.isDirB target = false then
    Except.error InitErr.panic
  else
    let package_name := target.getLastD ""
    let fs := fs.writeFile (target ++ ["Buddy.toml"]) (get_base_config package_name)
    let fs :=
      if fs.existsB (target ++ ["WORKSPACE"]) = false then
        let fs := fs.writeFile (target ++ ["WORKSPACE"]) ""
        let fs :=
          if fs.isDirB (target ++ ["src"]) = false then fs.mkdir (target ++ ["src"]) else fs
        let fs :=
          if fs.isFileB (target ++ ["src", "main.cc"]) = false then
            fs.writeFile (target ++ ["src", "main.cc"]) get_main
          else fs
        let fs :=
          if fs.isDirB (target ++ ["test"]) = false then fs.mkdir (target ++ ["test"]) else fs
        let fs :=
          if fs.isFileB (target ++ ["test", "test_main.cc"]) = false then
            fs.writeFile (target ++ ["test", "test_main.cc"]) get_test
          else fs
        fs
      else fs
    Except.ok fs

/-- The filesystem produced by the fully fresh path of `initRun`: manifest,
empty WORKSPACE marker, src/, main.cc, test/, test_main.cc, in source order. -/
def initScaffold (target : List String) (fs : FS) : FS :=
  let fs := fs.writeFile (target ++ ["Buddy.toml"]) (get_base_config (target.getLastD ""))
  let fs := fs.writeFile (target ++ ["WORKSPACE"]) ""
  let fs := fs.mkdir (target ++ ["src"])
  let fs := fs.writeFile (target ++ ["src", "main.cc"]) get_main
  let fs := fs.mkdir (target ++ ["test"])
  let fs := fs.writeFile (target ++ ["test", "test_main.cc"]) get_test
  fs

/-! Section: Build orchestrator (src/src/main.rs lines 169-294) -/

/-- The external tool subprocess, abstracted as its exit code and the lines
it writes to its diagnostic stream. -/
structure Subprocess where
  exitCode : Int
  stderrLines : List String

/-- The per-line reclassification of the diagnostic stream (src/src/main.rs
lines 192-200): a line starting with the INFO prefix is re-emitted with the
prefix distinguished and the first six characters dropped; every other line
passes through unchanged.  (The green colouring is not modelled; the source
`split_at(6)` assumes the line has at least six characters.) -/
def echoLine (line : String) : String :=
  if line.startsWith ("INFO:") then "INFO: " ++ (line.drop 6) else line

/-- The post-run cleanup (src/src/main.rs lines 202-206, and the identical
blocks in `run` and `test`): remove the `bazel-out` directory when present,
regardless of how the subprocess exited. -/
def bazelOutCleanup (fs : FS) : FS :=
  if fs.existsB ["bazel-out"] then fs.removeTree ["bazel-out"] else fs

/-- Everything a build/run/test invocation produces: the argument list handed
to the external tool, the reclassified diagnostic lines printed, the
filesystem after cleanup, and the value the orchestrator function returns. -/
structure ExecOutcome where
  args : List String
  printed : List String
  fs : FS
  result : Except String Unit

/-- Function `build` of src/src/main.rs lines 169-209: subcommand, symlink option,
then the user targets verbatim or the all-sources default; streams and
reclassifies the diagnostic lines; removes `bazel-out`; returns `Ok(())`
without consulting the exit status of the child (the child is never waited
on). -/
def build (targets : List String) (child : Subprocess) (fs : FS) : ExecOutcome :=
  { args := ["build", "--symlink_\x70refix=target/"] ++
      (if targets.length ≠ 0 then targets else ["//src/..."]),
    printed := child.stderrLines.map echoLine,
    fs := bazelOutCleanup fs,
    result := Except.ok () }

/-- Function `run` of src/src/main.rs lines 211-251: like `build` with the `run`
subcommand; the empty-target default is the binary named after the manifest
package name under //src. -/
def run (targets : List String) (config : Config) (child : Subprocess) (fs : FS) :
    ExecOutcome :=
  { args := ["run", "--symlink_\x70refix=target/"] ++
      (if targets.length ≠ 0 then targets else ["//src:" ++ config.package.name]),
    printed := child.stderrLines.map echoLine,
    fs := bazelOutCleanup fs,
    result := Except.ok () }

/-- Function `test` of src/src/main.rs lines 253-294: like `build` with the `test`
subcommand and the test-output option; the empty-target default is all
tests. -/
def test (targets : List String) (child : Subprocess) (fs : FS) : ExecOutcome :=
  { args := ["test", "--test_output=all", "--symlink_\x70refix=target/"] ++
      (if targets.length ≠ 0 then targets else ["//test/..."]),
    printed := child.stderrLines.map echoLine,
    fs := bazelOutCleanup fs,
    result := Except.ok () }

/-! Section: `main` (src/src/main.rs lines 345-436) -/

/-- The CLI commands (`enum Commands` of src/src/main.rs).  The `new` path is
modelled as a single segment, the `init` path as a segment list. -/
inductive Cmd where
  | new (path : String)
  | init (path : List String)
  | build (targets : List String)
  | run (targets : List String)
  | test (targets : List String)

/-- How `main` can abort: the panic when `which("bazelisk")` fails, the
`unwrap` panic on a malformed manifest, or a panic escaping
`commands::init::run`. -/
inductive MainErr where
  | bazelNotFound
  | manifestParse
  | initPanic
  deriving DecidableEq

/-- Function `main` of src/src/main.rs lines 345-436.  The bazelisk lookup happens
first and its failure is fatal for every command; the manifest is then
loaded (missing file tolerated, malformed file fatal); only then is the
command dispatched.  An `Err` from `commands::init::run` is printed by
`unwrap_or_else` and the process still exits normally, so it maps to `ok`
with the filesystem unchanged. -/
def mainRun (bazelFound : Bool) (manifestContent : Option String)
    (parse : String → Option Config) (cwd : List String) (child : Subprocess)
    (cmd : Cmd) (fs : FS) : Except MainErr FS :=
  if bazelFound = false then
    Except.error MainErr.bazelNotFound
  else
    match loadConfig manifestContent parse with
    | Except.error _ => Except.error MainErr.manifestParse
    | Except.ok config =>
      match cmd with
      | Cmd.new path => Except.ok (new_package path fs).fs
      | Cmd.init path =>
        match initRun cwd path fs with
        | Except.ok fs2 => Except.ok fs2
        | Except.error InitErr.alreadyPackage => Except.ok fs
        | Except.error InitErr.panic => Except.error MainErr.initPanic
      | Cmd.build targets => Except.ok (build targets child fs).fs
      | Cmd.run targets => Except.ok (run targets config child fs).fs
      | Cmd.test targets => Except.ok (test targets child fs).fs

/-! Section: Helper lemmas about the filesystem model and paths -/

theorem FS.writeFile_same (fs : FS) (p : List String) (c : String) :
    fs.writeFile p c p = some (Entry.file c) := by
  simp [FS.writeFile]

theorem FS.writeFile_ne (fs : FS) (p : List String) (c : String) (q : List String)
    (h : q ≠ p) : fs.writeFile p c q = fs q := by
  simp [FS.writeFile, h]

theorem FS.mkdir_same (fs : FS) (p : List String) : fs.mkdir p p = some Entry.dir := by
  simp [FS.mkdir]

theorem FS.mkdir_ne (fs : FS) (p : List String) (q : List String) (h : q ≠ p) :
    fs.mkdir p q = fs q := by
  simp [FS.mkdir, h]

/-- Two paths with different last segments differ. -/
theorem concat_ne_of_last_ne {xs ys : List String} {a b : String} (h : a ≠ b) :
    xs ++ [a] ≠ ys ++ [b] := by
  intro hEq
  have h2 : a :: xs.reverse = b :: ys.reverse := by
    simpa using congrArg List.reverse hEq
  injection h2 with h3 _
  exact h h3

/-- A path is never equal to a proper extension of itself. -/
theorem self_ne_append {t xs : List String} (h : xs ≠ []) : t ≠ t ++ xs := by
  intro hEq
  have h1 := congrArg List.length hEq
  rw [List.length_append] at h1
  have h2 : xs.length = 0 := by omega
  exact h (List.length_eq_zero.mp h2)

/-! Section: Helper lemmas about `initRun` -/

theorem initScaffold_manifest (target : List String) (fs : FS) :
    initScaffold target fs (target ++ ["Buddy.toml"])
      = some (Entry.file (get_base_config (target.getLastD ""))) := by
  simp [initScaffold, FS.writeFile, FS.mkdir]

theorem initScaffold_workspace (target : List String) (fs : FS) :
    initScaffold target fs (target ++ ["WORKSPACE"]) = some (Entry.file "") := by
  simp [initScaffold, FS.writeFile, FS.mkdir]

theorem initScaffold_src (target : List String) (fs : FS) :
    initScaffold target fs (target ++ ["src"]) = some Entry.dir := by
  simp [initScaffold, FS.writeFile, FS.mkdir]

theorem initScaffold_main (target : List String) (fs : FS) :
    initScaffold target fs (target ++ ["src", "main.cc"]) = some (Entry.file get_main) := by
  simp [initScaffold, FS.writeFile, FS.mkdir]

theorem initScaffold_testDir (target : List String) (fs : FS) :
    initScaffold target fs (target ++ ["test"]) = some Entry.dir := by
  simp [initScaffold, FS.writeFile, FS.mkdir]

theorem initScaffold_testMain (target : List String) (fs : FS) :
    initScaffold target fs (target ++ ["test", "test_main.cc"])
      = some (Entry.file get_test) := by
  simp [initScaffold, FS.writeFile, FS.mkdir]

/-- On a fresh target directory, `initRun` takes the fully fresh path and
produces exactly the `initScaffold` writes. -/
theorem initRun_fresh (cwd target : List String) (fs : FS)
    (h0 : fs (cwd ++ ["Buddy.toml"]) = none)
    (h1 : fs target = some Entry.dir)
    (h2 : fs (target ++ ["WORKSPACE"]) = none)
    (h3 : fs (target ++ ["src"]) = none)
    (h4 : fs (target ++ ["src", "main.cc"]) = none)
    (h5 : fs (target ++ ["test"]) = none)
    (h6 : fs (target ++ ["test", "test_main.cc"]) = none) :
    initRun cwd target fs = Except.ok (initScaffold target fs) := by
  simp [initRun, initScaffold, FS.existsB, FS.isDirB, FS.isFileB, FS.writeFile, FS.mkdir,
    h0, h1, h2, h3, h4, h5, h6]

/-- When the working directory already holds a `Buddy.toml`, `initRun` fails
with the already-a-package error before touching anything. -/
theorem initRun_alreadyPackage (cwd target : List String) (fs : FS) (e : Entry)
    (h : fs (cwd ++ ["Buddy.toml"]) = some e) :
    initRun cwd target fs = Except.error InitErr.alreadyPackage := by
  simp [initRun, FS.existsB, h]

/-- The scaffold writes of a first run never touch the manifest path of a
different working directory. -/
theorem initScaffold_otherManifest (cwd target : List String) (fs : FS)
    (hct : cwd ≠ target) (h0 : fs (cwd ++ ["Buddy.toml"]) = none) :
    initScaffold target fs (cwd ++ ["Buddy.toml"]) = none := by
  have e1 : target ++ ["test", "test_main.cc"] = (target ++ ["test"]) ++ ["test_main.cc"] := by
    simp
  have n1 : cwd ++ ["Buddy.toml"] ≠ target ++ ["test", "test_main.cc"] := by
    rw [e1]; exact concat_ne_of_last_ne (by decide)
  have n2 : cwd ++ ["Buddy.toml"] ≠ target ++ ["test"] := concat_ne_of_last_ne (by decide)
  have e2 : target ++ ["src", "main.cc"] = (target ++ ["src"]) ++ ["main.cc"] := by simp
  have n3 : cwd ++ ["Buddy.toml"] ≠ target ++ ["src", "main.cc"] := by
    rw [e2]; exact concat_ne_of_last_ne (by decide)
  have n4 : cwd ++ ["Buddy.toml"] ≠ target ++ ["src"] := concat_ne_of_last_ne (by decide)
  have n5 : cwd ++ ["Buddy.toml"] ≠ target ++ ["WORKSPACE"] := concat_ne_of_last_ne (by decide)
  have n6 : cwd ++ ["Buddy.toml"] ≠ target ++ ["Buddy.toml"] :=
    fun hEq => hct (List.append_cancel_right hEq)
  simp [initScaffold, FS.writeFile, FS.mkdir, n1, n2, n3, n4, n5, n6, h0]

/-- The scaffold writes of a first run leave the target directory entry as it
was. -/
theorem initScaffold_targetDir (target : List String) (fs : FS)
    (h1 : fs target = some Entry.dir) :
    initScaffold target fs target = some Entry.dir := by
  have n1 : target ≠ target ++ ["Buddy.toml"] := self_ne_append (by decide)
  have n2 : target ≠ target ++ ["WORKSPACE"] := self_ne_append (by decide)
  have n3 : target ≠ target ++ ["src"] := self_ne_append (by decide)
  have n4 : target ≠ target ++ ["src", "main.cc"] := self_ne_append (by decide)
  have n5 : target ≠ target ++ ["test"] := self_ne_append (by decide)
  have n6 : target ≠ target ++ ["test", "test_main.cc"] := self_ne_append (by decide)
  simp [initScaffold, FS.writeFile, FS.mkdir, n1, n2, n3, n4, n5, n6, h1]

/-- A second `initRun` on an already scaffolded directory (with a working
directory different from the target and itself free of a manifest) succeeds
and only rewrites the manifest. -/
theorem initRun_second (cwd target : List String) (fs : FS)
    (hct : cwd ≠ target)
    (h0 : fs (cwd ++ ["Buddy.toml"]) = none)
    (h1 : fs target = some Entry.dir) :
    initRun cwd target (initScaffold target fs) =
      Except.ok ((initScaffold target fs).writeFile (target ++ ["Buddy.toml"])
        (get_base_config (target.getLastD ""))) := by
  have e0 := initScaffold_otherManifest cwd target fs hct h0
  have e1 := initScaffold_targetDir target fs h1
  have e2 := initScaffold_workspace target fs
  have nwm : target ++ ["WORKSPACE"] ≠ target ++ ["Buddy.toml"] := by simp
  simp [initRun, FS.existsB, FS.isDirB, FS.writeFile, e0, e1, e2, nwm]

/-- Rewriting the manifest with the identical content changes no path of the
scaffolded filesystem. -/
theorem initSecond_unchanged (target : List String) (fs : FS) (p : List String) :
    ((initScaffold target fs).writeFile (target ++ ["Buddy.toml"])
      (get_base_config (target.getLastD ""))) p = initScaffold target fs p := by
  by_cases hp : p = target ++ ["Buddy.toml"]
  · subst hp
    rw [FS.writeFile_same, initScaffold_manifest]
  · exact FS.writeFile_ne _ _ _ _ hp

/-! Section: Claim C1 -/

/-- C1, amended: when the destination path already exists, `new_package`
performs no filesystem writes and prints the destination-exists error line,
but it returns `Ok(())` rather than failing with an error value. -/
theorem c1_corrected (package_name : String) (fs : FS) (e : Entry)
    (h : fs [package_name] = some e) :
    (new_package package_name fs).fs = fs ∧
    (new_package package_name fs).result = Except.ok () ∧
    (new_package package_name fs).printed =
      ["error: destination `" ++ package_name ++ "` already exixts"] := by
  have hx : fs.existsB [package_name] = true := by simp [FS.existsB, h]
  refine ⟨?_, ?_, ?_⟩ <;> simp [new_package, hx]

/-- A filesystem holding one existing directory named `demo`. -/
def fsC1 : FS := fun p => if p = ["demo"] then some Entry.dir else none

/-- C1 witness: the amended statement applied at a concrete filesystem where
the destination `demo` exists. -/
theorem c1_witness :
    fsC1 ["demo"] = some Entry.dir ∧
    ((new_package "demo" fsC1).fs = fsC1 ∧
      (new_package "demo" fsC1).result = Except.ok () ∧
      (new_package "demo" fsC1).printed =
        ["error: destination `" ++ "demo" ++ "` already exixts"]) :=
  ⟨rfl, c1_corrected "demo" fsC1 Entry.dir rfl⟩

/-- A filesystem holding one existing directory named `existing`. -/
def fsC1x : FS := fun p => if p = ["existing"] then some Entry.dir else none

/-- C1 counterexample: on a destination that already exists, `new_package`
returns `Ok(())` — it does not fail, contradicting the claim that it fails
with `DestinationExists`. -/
theorem c1_counterexample :
    fsC1x ["existing"] = some Entry.dir ∧
    (new_package "existing" fsC1x).result = Except.ok () :=
  ⟨rfl, rfl⟩

/-! Section: Claim C2 -/

/-- C2, amended: after the subprocess terminates, `build`, `run` and `test`
always return success, whatever the exit code of the external tool was: the
child process is never waited on, its exit status is never read, and a
non-zero exit is therefore reported as a normal success exit rather than
being propagated. -/
theorem c2_corrected (targets : List String) (config : Config) (child : Subprocess)
    (fs : FS) :
    (build targets child fs).result = Except.ok () ∧
    (run targets config child fs).result = Except.ok () ∧
    (test targets child fs).result = Except.ok () :=
  ⟨rfl, rfl, rfl⟩

/-- C2 counterexample: with a subprocess that exited with code 1, all three
orchestrator functions still return success, contradicting the claim that a
non-zero exit is surfaced as a non-zero outcome. -/
theorem c2_counterexample :
    (⟨1, []⟩ : Subprocess).exitCode ≠ 0 ∧
    (build [] ⟨1, []⟩ FS.empty).result = Except.ok () ∧
    (run [] defaultConfig ⟨1, []⟩ FS.empty).result = Except.ok () ∧
    (test [] ⟨1, []⟩ FS.empty).result = Except.ok () :=
  ⟨by decide, rfl, rfl, rfl⟩

/-! Section: Claim C3 -/

/-- C3, amended: scaffolding applies the version substitution to the
google-test rule, whose template contains no placeholder at all, so resolving
google-test at 1.13.0 indeed yields a rendered rule with no unresolved
placeholder text; but the bazel-toolchain rule is emitted verbatim and keeps
its literal placeholder text, which therefore appears in the generated
workspace file. -/
theorem c3_corrected :
    googleTestPlugin.versions.lookup ("1.13.0")
      = some "b796f7d44681514f58a683a3a71ff17c94edb0c1" ∧
    renderedGoogleTest =
      String.mk (replaceAll ("\x7bversion\x7d").data
        ("b796f7d44681514f58a683a3a71ff17c94edb0c1").data
        googleTestPlugin.build_rule.data) ∧
    listHasSub ['\x7b'] renderedGoogleTest.data = false ∧
    listHasSub ("\x7btag\x7d").data bazelToolchainPlugin.build_rule.data = true ∧
    workspaceNewContent =
      workspaceHeader ++ renderedGoogleTest ++ "\n" ++ bazelToolchainPlugin.build_rule :=
  ⟨rfl, rfl, by decide, by decide, rfl⟩

/-- C3 counterexample: the WORKSPACE file written by `new_package` contains
the unresolved placeholder text `{tag}` (inside the verbatim bazel-toolchain
rule), contradicting the claim that the rendered output contains no
unresolved placeholder text. -/
theorem c3_counterexample :
    (new_package "pkg" FS.empty).fs ["pkg", "WORKSPACE"]
      = some (Entry.file workspaceNewContent) ∧
    listHasSub ("\x7btag\x7d").data workspaceNewContent.data = true :=
  ⟨rfl, by decide⟩

/-! Section: Claim C4 -/

/-- C4, amended: on a fresh directory the first `initRun` creates the
manifest, the workspace marker, src/, test/ and the placeholder source and
test files.  When the target directory is not the working directory (and the
working directory holds no manifest), the second run also succeeds: it
rewrites the manifest and leaves every path byte-for-byte as the first run
left it.  When the fresh directory is the working directory itself (the
default `init` invocation), the second run instead fails with the
already-a-package error. -/
theorem c4_corrected (cwd target : List String) (fs : FS)
    (h0 : fs (cwd ++ ["Buddy.toml"]) = none)
    (h1 : fs target = some Entry.dir)
    (h2 : fs (target ++ ["WORKSPACE"]) = none)
    (h3 : fs (target ++ ["src"]) = none)
    (h4 : fs (target ++ ["src", "main.cc"]) = none)
    (h5 : fs (target ++ ["test"]) = none)
    (h6 : fs (target ++ ["test", "test_main.cc"]) = none) :
    initRun cwd target fs = Except.ok (initScaffold target fs) ∧
    (initScaffold target fs (target ++ ["Buddy.toml"])
        = some (Entry.file (get_base_config (target.getLastD ""))) ∧
      initScaffold target fs (target ++ ["WORKSPACE"]) = some (Entry.file "") ∧
      initScaffold target fs (target ++ ["src"]) = some Entry.dir ∧
      initScaffold target fs (target ++ ["src", "main.cc"]) = some (Entry.file get_main) ∧
      initScaffold target fs (target ++ ["test"]) = some Entry.dir ∧
      initScaffold target fs (target ++ ["test", "test_main.cc"])
        = some (Entry.file get_test)) ∧
    (cwd ≠ target →
      initRun cwd target (initScaffold target fs) =
        Except.ok ((initScaffold target fs).writeFile (target ++ ["Buddy.toml"])
          (get_base_config (target.getLastD ""))) ∧
      ∀ p, ((initScaffold target fs).writeFile (target ++ ["Buddy.toml"])
          (get_base_config (target.getLastD ""))) p = initScaffold target fs p) ∧
    (cwd = target →
      initRun cwd target (initScaffold target fs) = Except.error InitErr.alreadyPackage) := by
  refine ⟨initRun_fresh cwd target fs h0 h1 h2 h3 h4 h5 h6,
    ⟨initScaffold_manifest target fs, initScaffold_workspace target fs,
      initScaffold_src target fs, initScaffold_main target fs,
      initScaffold_testDir target fs, initScaffold_testMain target fs⟩,
    fun hct => ⟨initRun_second cwd target fs hct h0 h1, initSecond_unchanged target fs⟩,
    fun hct => ?_⟩
  subst hct
  exact initRun_alreadyPackage cwd cwd (initScaffold cwd fs)
    (Entry.file (get_base_config (cwd.getLastD ""))) (initScaffold_manifest cwd fs)

/-- A filesystem holding a fresh directory `proj` that is also the working
directory of the process. -/
def fsC4 : FS := fun p => if p = ["proj"] then some Entry.dir else none

/-- C4 counterexample: with the fresh directory equal to the working
directory (a plain `buddy init` with the default path `.`), the first run
succeeds but the second run fails with the already-a-package error,
contradicting the claim that both runs succeed on every fresh directory. -/
theorem c4_counterexample :
    initRun ["proj"] ["proj"] fsC4 = Except.ok (initScaffold ["proj"] fsC4) ∧
    initRun ["proj"] ["proj"] (initScaffold ["proj"] fsC4)
      = Except.error InitErr.alreadyPackage :=
  ⟨rfl, rfl⟩

/-- A filesystem holding the working directory `home` and a fresh target
directory `home/proj`. -/
def fsC4w : FS := fun p =>
  if p = ["home"] then some Entry.dir
  else if p = ["home", "proj"] then some Entry.dir
  else none

/-- C4 witness: the amended statement applied at a concrete fresh directory
distinct from the working directory. -/
theorem c4_witness :
    fsC4w (["home"] ++ ["Buddy.toml"]) = none ∧
    fsC4w ["home", "proj"] = some Entry.dir ∧
    fsC4w (["home", "proj"] ++ ["WORKSPACE"]) = none ∧
    fsC4w (["home", "proj"] ++ ["src"]) = none ∧
    fsC4w (["home", "proj"] ++ ["src", "main.cc"]) = none ∧
    fsC4w (["home", "proj"] ++ ["test"]) = none ∧
    fsC4w (["home", "proj"] ++ ["test", "test_main.cc"]) = none ∧
    (["home"] : List String) ≠ ["home", "proj"] ∧
    initRun ["home"] ["home", "proj"] fsC4w
      = Except.ok (initScaffold ["home", "proj"] fsC4w) ∧
    initRun ["home"] ["home", "proj"] (initScaffold ["home", "proj"] fsC4w)
      = Except.ok ((initScaffold ["home", "proj"] fsC4w).writeFile
          (["home", "proj"] ++ ["Buddy.toml"])
          (get_base_config ((["home", "proj"] : List String).getLastD ""))) :=
  ⟨rfl, rfl, rfl, rfl, rfl, rfl, rfl, by decide,
    (c4_corrected ["home"] ["home", "proj"] fsC4w rfl rfl rfl rfl rfl rfl rfl).1,
    ((c4_corrected ["home"] ["home", "proj"] fsC4w rfl rfl rfl rfl rfl rfl rfl).2.2.1
      (by decide)).1⟩

/-! Section: Claim C5 -/

/-- C5, confirmed: when the target directory already contains a WORKSPACE
entry, `initRun` writes only the manifest — src/, test/ and the placeholder
files are not created even when absent — and succeeds. -/
theorem c5_confirmed (cwd target : List String) (fs : FS) (w0 : Entry)
    (h0 : fs (cwd ++ ["Buddy.toml"]) = none)
    (h1 : fs target = some Entry.dir)
    (hW : fs (target ++ ["WORKSPACE"]) = some w0) :
    initRun cwd target fs =
      Except.ok (fs.writeFile (target ++ ["Buddy.toml"])
        (get_base_config (target.getLastD ""))) ∧
    (fs.writeFile (target ++ ["Buddy.toml"]) (get_base_config (target.getLastD "")))
        (target ++ ["Buddy.toml"])
      = some (Entry.file (get_base_config (target.getLastD ""))) ∧
    (∀ p, p ≠ target ++ ["Buddy.toml"] →
      (fs.writeFile (target ++ ["Buddy.toml"]) (get_base_config (target.getLastD ""))) p
        = fs p) ∧
    (fs.writeFile (target ++ ["Buddy.toml"]) (get_base_config (target.getLastD "")))
        (target ++ ["src"]) = fs (target ++ ["src"]) ∧
    (fs.writeFile (target ++ ["Buddy.toml"]) (get_base_config (target.getLastD "")))
        (target ++ ["src", "main.cc"]) = fs (target ++ ["src", "main.cc"]) ∧
    (fs.writeFile (target ++ ["Buddy.toml"]) (get_base_config (target.getLastD "")))
        (target ++ ["test"]) = fs (target ++ ["test"]) ∧
    (fs.writeFile (target ++ ["Buddy.toml"]) (get_base_config (target.getLastD "")))
        (target ++ ["test", "test_main.cc"]) = fs (target ++ ["test", "test_main.cc"]) := by
  have nwm : target ++ ["WORKSPACE"] ≠ target ++ ["Buddy.toml"] := by simp
  refine ⟨?_, FS.writeFile_same fs _ _, fun p hp => FS.writeFile_ne _ _ _ _ hp,
    FS.writeFile_ne _ _ _ _ (by simp), FS.writeFile_ne _ _ _ _ (by simp),
    FS.writeFile_ne _ _ _ _ (by simp), FS.writeFile_ne _ _ _ _ (by simp)⟩
  simp [initRun, FS.existsB, FS.isDirB, FS.writeFile, h0, h1, hW, nwm]

/-- A filesystem holding a directory `proj2` that already has a WORKSPACE
marker but no src/, test/ or placeholder files. -/
def fsC5 : FS := fun p =>
  if p = ["proj2"] then some Entry.dir
  else if p = ["proj2", "WORKSPACE"] then some (Entry.file "user edited") else none

/-- C5 witness: the statement applied at a concrete directory that already
has a workspace marker and nothing else. -/
theorem c5_witness :
    fsC5 (([] : List String) ++ ["Buddy.toml"]) = none ∧
    fsC5 ["proj2"] = some Entry.dir ∧
    fsC5 (["proj2"] ++ ["WORKSPACE"]) = some (Entry.file "user edited") ∧
    initRun [] ["proj2"] fsC5 =
      Except.ok (fsC5.writeFile (["proj2"] ++ ["Buddy.toml"])
        (get_base_config ((["proj2"] : List String).getLastD ""))) ∧
    (fsC5.writeFile (["proj2"] ++ ["Buddy.toml"])
        (get_base_config ((["proj2"] : List String).getLastD "")))
        (["proj2"] ++ ["src"]) = fsC5 (["proj2"] ++ ["src"]) :=
  ⟨rfl, rfl, rfl,
    (c5_confirmed [] ["proj2"] fsC5 (Entry.file "user edited") rfl rfl rfl).1,
    (c5_confirmed [] ["proj2"] fsC5 (Entry.file "user edited") rfl rfl rfl).2.2.2.1⟩

/-! Section: Claim C6 -/

/-- C6, confirmed: with an empty target list the constructed command line is
exactly the fixed leading arguments followed by the operation-specific
default target (all sources under //src for build, all tests under //test
for test, the binary named after the manifest package name for run); with a
non-empty target list the user targets are appended verbatim and no default
is added. -/
theorem c6_confirmed (config : Config) (child : Subprocess) (fs : FS)
    (t0 : String) (ts : List String) :
    (build [] child fs).args = ["build", "--symlink_\x70refix=target/", "//src/..."] ∧
    (test [] child fs).args =
      ["test", "--test_output=all", "--symlink_\x70refix=target/", "//test/..."] ∧
    (run [] config child fs).args =
      ["run", "--symlink_\x70refix=target/", "//src:" ++ config.package.name] ∧
    (build (t0 :: ts) child fs).args =
      ["build", "--symlink_\x70refix=target/"] ++ (t0 :: ts) ∧
    (test (t0 :: ts) child fs).args =
      ["test", "--test_output=all", "--symlink_\x70refix=target/"] ++ (t0 :: ts) ∧
    (run (t0 :: ts) config child fs).args =
      ["run", "--symlink_\x70refix=target/"] ++ (t0 :: ts) := by
  refine ⟨?_, ?_, ?_, ?_, ?_, ?_⟩ <;> simp [build, run, test]

/-! Section: Claim C7 -/

/-- C7, amended: a missing bazelisk binary is a fatal startup condition for
every command — including the pure scaffolding commands `new` and `init`,
which do not proceed without it, contrary to the claim. -/
theorem c7_corrected (manifestContent : Option String) (parse : String → Option Config)
    (cwd : List String) (child : Subprocess) (cmd : Cmd) (fs : FS) :
    mainRun false manifestContent parse cwd child cmd fs
      = Except.error MainErr.bazelNotFound := rfl

/-- C7 counterexample: with the bazelisk lookup failing, the `new` and `init`
commands abort with the fatal startup error instead of proceeding,
contradicting the claim that scaffolding commands proceed without the
external binary. -/
theorem c7_counterexample :
    mainRun false none (fun _ => none) [] ⟨0, []⟩ (Cmd.new "pkg") FS.empty
      = Except.error MainErr.bazelNotFound ∧
    mainRun false none (fun _ => none) [] ⟨0, []⟩ (Cmd.init ["pkg"]) FS.empty
      = Except.error MainErr.bazelNotFound :=
  ⟨rfl, rfl⟩

/-! Section: Claim C8 -/

/-- C8, confirmed: manifest load on a missing descriptor yields the default
config with every field empty instead of failing, while load on a present
but malformed descriptor fails, and that failure aborts the invoking command
before dispatch rather than falling back to the default. -/
theorem c8_confirmed (parse : String → Option Config) (content : String)
    (cmd : Cmd) (cwd : List String) (child : Subprocess) (fs : FS)
    (h : parse content = none) :
    loadConfig none parse = Except.ok defaultConfig ∧
    defaultConfig.package.name = "" ∧
    defaultConfig.package.version = "" ∧
    defaultConfig.package.edition = "" ∧
    defaultConfig.dependencies = [] ∧
    loadConfig (some content) parse = Except.error () ∧
    mainRun true (some content) parse cwd child cmd fs
      = Except.error MainErr.manifestParse := by
  refine ⟨rfl, rfl, rfl, rfl, rfl, ?_, ?_⟩ <;> simp [loadConfig, mainRun, h]

/-- C8 witness: the statement applied at a parser that rejects the concrete
content `not toml`. -/
theorem c8_witness :
    (fun _ : String => (none : Option Config)) "not toml" = none ∧
    loadConfig (some "not toml") (fun _ => none) = Except.error () ∧
    mainRun true (some "not toml") (fun _ => none) [] ⟨0, []⟩ (Cmd.build []) FS.empty
      = Except.error MainErr.manifestParse :=
  ⟨rfl,
    (c8_confirmed (fun _ => none) "not toml" (Cmd.build []) [] ⟨0, []⟩ FS.empty
      rfl).2.2.2.2.2.1,
    (c8_confirmed (fun _ => none) "not toml" (Cmd.build []) [] ⟨0, []⟩ FS.empty
      rfl).2.2.2.2.2.2⟩

/-! Section: Claim C9 -/

/-- C9, confirmed: the workspace marker scaffolded by `initRun` is a
zero-byte file — no generated-file header, no plugin rules — while
`new_package` writes into its WORKSPACE file a non-empty content that starts
with the generated-file header and continues with the rendered google-test
rule and the bazel-toolchain rule. -/
theorem c9_confirmed (cwd target : List String) (fs fsn : FS) (package_name : String)
    (h0 : fs (cwd ++ ["Buddy.toml"]) = none)
    (h1 : fs target = some Entry.dir)
    (h2 : fs (target ++ ["WORKSPACE"]) = none)
    (h3 : fs (target ++ ["src"]) = none)
    (h4 : fs (target ++ ["src", "main.cc"]) = none)
    (h5 : fs (target ++ ["test"]) = none)
    (h6 : fs (target ++ ["test", "test_main.cc"]) = none)
    (hn : fsn [package_name] = none) :
    initRun cwd target fs = Except.ok (initScaffold target fs) ∧
    initScaffold target fs (target ++ ["WORKSPACE"]) = some (Entry.file "") ∧
    (new_package package_name fsn).fs [package_name, "WORKSPACE"]
      = some (Entry.file workspaceNewContent) ∧
    workspaceNewContent ≠ "" ∧
    workspaceHeader.data.isPrefixOf workspaceNewContent.data = true ∧
    workspaceNewContent
      = (workspaceHeader ++ renderedGoogleTest) ++ ("\n" ++ bazelToolchainPlugin.build_rule) := by
  have hx : fsn.existsB [package_name] = false := by simp [FS.existsB, hn]
  refine ⟨initRun_fresh cwd target fs h0 h1 h2 h3 h4 h5 h6,
    initScaffold_workspace target fs, ?_, by decide, by decide,
    String.append_assoc (workspaceHeader ++ renderedGoogleTest) "\n"
      bazelToolchainPlugin.build_rule⟩
  simp [new_package, newScaffold, FS.writeFile, FS.mkdir, hx]

/-- C9 witness: the statement applied at a concrete fresh init directory and
a concrete fresh `new` destination. -/
theorem c9_witness :
    fsC4w (["home"] ++ ["Buddy.toml"]) = none ∧
    FS.empty ["pkg9"] = none ∧
    initScaffold ["home", "proj"] fsC4w ((["home", "proj"] : List String) ++ ["WORKSPACE"])
      = some (Entry.file "") ∧
    (new_package "pkg9" FS.empty).fs ["pkg9", "WORKSPACE"]
      = some (Entry.file workspaceNewContent) ∧
    workspaceNewContent ≠ "" :=
  ⟨rfl, rfl,
    (c9_confirmed ["home"] ["home", "proj"] fsC4w FS.empty "pkg9"
      rfl rfl rfl rfl rfl rfl rfl rfl).2.1,
    (c9_confirmed ["home"] ["home", "proj"] fsC4w FS.empty "pkg9"
      rfl rfl rfl rfl rfl rfl rfl rfl).2.2.1,
    (c9_confirmed ["home"] ["home", "proj"] fsC4w FS.empty "pkg9"
      rfl rfl rfl rfl rfl rfl rfl rfl).2.2.2.1⟩

/-! Section: Claim C10 -/

/-- C10, confirmed: a `run` with no targets in a directory without a manifest
uses the default config whose package name is empty, so the constructed
default target is the source-root target with an empty binary name, and the
invocation goes through the dispatcher successfully instead of failing over
the missing manifest. -/
theorem c10_confirmed (parse : String → Option Config) (cwd : List String)
    (child : Subprocess) (fs : FS) :
    loadConfig none parse = Except.ok defaultConfig ∧
    defaultConfig.package.name = "" ∧
    (run [] defaultConfig child fs).args
      = ["run", "--symlink_\x70refix=target/", "//src:" ++ defaultConfig.package.name] ∧
    (run [] defaultConfig child fs).args.getLast? = some "//src:" ∧
    mainRun true none parse cwd child (Cmd.run []) fs
      = Except.ok ((run [] defaultConfig child fs).fs) := by
  refine ⟨rfl, rfl, ?_, ?_, rfl⟩ <;> simp [run, defaultConfig]

end Buddy
